import Mathlib

/-!
Verification development for the whiteboard-processing CLI
(`app/process_whiteboard.py`) and its companion evaluation harness
(`eval/run_eval.py`).  The Python functions are shallowly embedded as
executable Lean definitions; filesystem writes are modelled as explicit
effect traces and each `try/except` block as a match on an `Except` value
supplied by the environment.
-/

namespace Whiteboard

/-- Model of Python `s.startswith(pre)`: `pre` is a prefix of `s`
(character-by-character). -/
def pyStartsWith (s pre : String) : Bool :=
  pre.data.isPrefixOf s.data

/-- Model of Python `s.lower()` on the ASCII strings this program handles. -/
def lowerStr (s : String) : String :=
  String.mk (s.data.map Char.toLower)

/-- Model of Python `s.replace(old, new)` for a single-character pattern,
the only form the source uses: every occurrence of `old` becomes `new`. -/
def pyReplaceChar (s : String) (old new : Char) : String :=
  String.mk (s.data.map (fun c => if c = old then new else c))

/-!
## Provider-response values

`get_output_url` (production CLI) and the normalization block inside
`run_model` (evaluation harness) duck-type their argument: they only ever
ask whether it is `None`, whether it has a `url` attribute, whether it is a
string starting with `http`, whether it is iterable, and what `str()` of it
is.  `PyVal` captures exactly those observations.  Items produced by
iteration are only ever inspected for a `url` attribute or string-ness, so
they live in the flat type `PyItem`; any other item (including a nested
list) behaves identically to `otherItem` in the source loops.
-/

/-- An element yielded by iterating a provider response. -/
inductive PyItem where
  | urlItem (url : String) (strForm : String)
  | strItem (s : String)
  | otherItem (strForm : String)
deriving DecidableEq, Repr

/-- A provider response value, as observed by the normalization code. -/
inductive PyVal where
  | pyNone
  | pyStr (s : String)
  | urlObj (url : String) (strForm : String)
  | pyList (items : List PyItem)
  | plainObj (strForm : String)
deriving DecidableEq, Repr

/-- `hasattr(output, 'url')` followed by `output.url`. -/
def urlAttr : PyVal → Option String
  | PyVal.urlObj u _ => some u
  | _ => Option.none

/-- `isinstance(output, str)` followed by the string itself. -/
def asString : PyVal → Option String
  | PyVal.pyStr s => some s
  | _ => Option.none

/-- `hasattr(output, '__iter__')` followed by the items iteration yields.
Iterating a Python string yields its characters as one-character strings;
`None` and a plain non-iterable object are not iterable. -/
def iterOf : PyVal → Option (List PyItem)
  | PyVal.pyStr s => some (s.data.map (fun c => PyItem.strItem (String.singleton c)))
  | PyVal.pyList items => some items
  | _ => Option.none

/-- Rendering of an item inside `str()` of a list.  Only the leading
bracket of the list rendering is ever consulted by the source (an `http`
prefix sniff), so the exact element rendering is immaterial. -/
def itemStr : PyItem → String
  | PyItem.urlItem _ sf => sf
  | PyItem.strItem s => s
  | PyItem.otherItem sf => sf

/-- Model of Python `str(output)`.  A list renders bracket-delimited. -/
def strOf : PyVal → String
  | PyVal.pyNone => "None"
  | PyVal.pyStr s => s
  | PyVal.urlObj _ sf => sf
  | PyVal.pyList items => "[" ++ String.intercalate ", " (items.map itemStr) ++ "]"
  | PyVal.plainObj sf => sf

/-- The `for item in output` loop body shared by both normalizers:
return `item.url` if the item has a `url` attribute, return the item if it
is a string starting with `http`, otherwise continue with the next item. -/
def scanItems : List PyItem → Option String
  | [] => Option.none
  | item :: rest =>
    match item with
    | PyItem.urlItem url _ => some url
    | PyItem.strItem s => if pyStartsWith s "http" then some s else scanItems rest
    | PyItem.otherItem _ => scanItems rest

/-- The shared last resort: `str(output)` is used only if it starts with
`http`, otherwise no location is found. -/
def lastResort (output : PyVal) : Option String :=
  if pyStartsWith (strOf output) "http" then some (strOf output) else Option.none

/-- The iterable branch of `get_output_url`: scan the items; on no match
fall through to the last resort.  A non-iterable value goes straight to
the last resort. -/
def iterScan (output : PyVal) : Option String :=
  match iterOf output with
  | some items =>
    match scanItems items with
    | some u => some u
    | Option.none => lastResort output
  | Option.none => lastResort output

/-- `get_output_url` from `app/process_whiteboard.py`: `None` gives no
location; an object with a `url` attribute gives that attribute; a string
starting with `http` gives itself; otherwise the iterable scan and the
stringified last resort run in order. -/
def get_output_url (output : PyVal) : Option String :=
  match output with
  | PyVal.pyNone => Option.none
  | _ =>
    match urlAttr output with
    | some u => some u
    | Option.none =>
      match asString output with
      | some s => if pyStartsWith s "http" then some s else iterScan output
      | Option.none => iterScan output

/-- The response-normalization block inside `run_model` from
`eval/run_eval.py`.  It differs textually from `get_output_url` in one
place: a string that does not start with `http` returns `None`
immediately instead of falling through to the iteration and last resort. -/
def run_model_normalize (output : PyVal) : Option String :=
  match output with
  | PyVal.pyNone => Option.none
  | _ =>
    match urlAttr output with
    | some u => some u
    | Option.none =>
      match asString output with
      | some s => if pyStartsWith s "http" then some s else Option.none
      | Option.none =>
        match iterOf output with
        | some items =>
          match scanItems items with
          | some u => some u
          | Option.none => lastResort output
        | Option.none => lastResort output

/-!
## Base64 and the image encoders

`image_to_data_uri` (both files) reads the file bytes, looks the lowercased
extension up in a fixed MIME table defaulting to `image/png`, and returns
`data:<mime>;base64,<standard base64 of the bytes>`.  File bytes are
modelled as `List Nat` with each entry below 256.
-/

/-- The standard base64 alphabet used by Python `base64.b64encode`. -/
def b64Alphabet : List Char :=
  ['A', 'B', 'C', 'D', 'E', 'F', 'G', 'H', 'I', 'J', 'K', 'L', 'M',
   'N', 'O', 'P', 'Q', 'R', 'S', 'T', 'U', 'V', 'W', 'X', 'Y', 'Z',
   'a', 'b', 'c', 'd', 'e', 'f', 'g', 'h', 'i', 'j', 'k', 'l', 'm',
   'n', 'o', 'p', 'q', 'r', 's', 't', 'u', 'v', 'w', 'x', 'y', 'z',
   '0', '1', '2', '3', '4', '5', '6', '7', '8', '9', '+', '/']

/-- The alphabet character at a 6-bit index. -/
def b64char (n : Nat) : Char := b64Alphabet.getD n 'A'

/-- The 6-bit index of an alphabet character. -/
def b64index (c : Char) : Nat := b64Alphabet.indexOf c

/-- Standard base64 encoding with `=` padding (`base64.b64encode`):
three input bytes become four alphabet characters; a trailing group of one
or two bytes is padded. -/
def b64encodeBytes : List Nat → List Char
  | [] => []
  | [b1] =>
    [b64char (b1 / 4), b64char (b1 % 4 * 16), '=', '=']
  | [b1, b2] =>
    [b64char (b1 / 4), b64char (b1 % 4 * 16 + b2 / 16),
     b64char (b2 % 16 * 4), '=']
  | b1 :: b2 :: b3 :: rest =>
    b64char (b1 / 4) :: b64char (b1 % 4 * 16 + b2 / 16) ::
    b64char (b2 % 16 * 4 + b3 / 64) :: b64char (b3 % 64) ::
    b64encodeBytes rest

/-- Standard base64 decoding of a padded character stream, inverse of
`b64encodeBytes` on well-formed input. -/
def b64decodeChars : List Char → List Nat
  | c1 :: c2 :: c3 :: c4 :: rest =>
    if c3 = '=' then
      [b64index c1 * 4 + b64index c2 / 16]
    else if c4 = '=' then
      [b64index c1 * 4 + b64index c2 / 16,
       b64index c2 % 16 * 16 + b64index c3 / 4]
    else
      (b64index c1 * 4 + b64index c2 / 16) ::
      (b64index c2 % 16 * 16 + b64index c3 / 4) ::
      (b64index c3 % 4 * 64 + b64index c4) ::
      b64decodeChars rest
  | _ => []

/-- The MIME table of `image_to_data_uri` in `app/process_whiteboard.py`. -/
def mime_types_app : List (String × String) :=
  [(".png", "image/png"), (".jpg", "image/jpeg"), (".jpeg", "image/jpeg"),
   (".webp", "image/webp"), (".gif", "image/gif"), (".bmp", "image/bmp")]

/-- The MIME table of `image_to_data_uri` in `eval/run_eval.py`; it lacks
the `.gif` and `.bmp` rows of the production table. -/
def mime_types_eval : List (String × String) :=
  [(".png", "image/png"), (".jpg", "image/jpeg"), (".jpeg", "image/jpeg"),
   (".webp", "image/webp")]

/-- `image_to_data_uri` from `app/process_whiteboard.py`, with the file
already read into `data` and the path suffix passed explicitly:
`mime_types.get(suffix, 'image/png')` then
`data:<mime>;base64,<b64 of data>`. -/
def image_to_data_uri (suffix : String) (data : List Nat) : String :=
  "data:" ++ ((mime_types_app.lookup (lowerStr suffix)).getD "image/png") ++
    ";base64," ++ String.mk (b64encodeBytes data)

/-- `image_to_data_uri` from `eval/run_eval.py`: identical but for its
smaller MIME table. -/
def image_to_data_uri_eval (suffix : String) (data : List Nat) : String :=
  "data:" ++ ((mime_types_eval.lookup (lowerStr suffix)).getD "image/png") ++
    ";base64," ++ String.mk (b64encodeBytes data)

/-!
## Output naming, folder relocation
-/

/-- The name-cleaning step of `generate_descriptive_name`:
`folder_name.replace(" ", "-").replace("_", "-").lower()`. -/
def clean_name (folder_name : String) : String :=
  lowerStr (pyReplaceChar (pyReplaceChar folder_name ' ' '-') '_' '-')

/-- Python `f"{n:02d}"` for the nonnegative indices used here: pad with a
leading zero to a minimum width of two digits. -/
def pad2 (n : Nat) : String :=
  if n < 10 then "0" ++ toString n else toString n

/-- `generate_descriptive_name` from `app/process_whiteboard.py`, with the
`datetime.now().strftime("%Y%m%d")` stamp passed as `timestamp`: the
cleaned folder name, the padded index unless `total == 1`, `-enhanced-`,
the date stamp, and the fixed `.png` extension. -/
def generate_descriptive_name (folder_name : String) (index total : Nat)
    (timestamp : String) : String :=
  if total = 1 then
    clean_name folder_name ++ "-enhanced-" ++ timestamp ++ ".png"
  else
    clean_name folder_name ++ "-" ++ pad2 index ++ "-enhanced-" ++ timestamp ++ ".png"

/-- `move_to_processed` from `app/process_whiteboard.py`.  The processed
root is modelled as the list of entry names it currently contains, and the
`datetime.now().strftime("%Y%m%d-%H%M%S")` stamp is passed explicitly.
The folder is renamed to its own name under the processed root, or to
`<name>-<timestamp>` when that destination already exists; the rename adds
the destination to the processed root.  Returns the destination and the
new state of the processed root. -/
def move_to_processed (processedEntries : List String)
    (folderName timestamp : String) : String × List String :=
  let destination :=
    if folderName ∈ processedEntries then folderName ++ "-" ++ timestamp
    else folderName
  (destination, destination :: processedEntries)

/-!
## Per-image processing and the per-run driver

External effects are abstracted per image: the environment says how the
file read (`image_to_data_uri`), the remote call (`replicate.run`) and the
download (`httpx.get` plus `raise_for_status`) turn out; an `Except.error`
arm is a raised Python exception.  Filesystem writes are recorded as an
explicit trace.
-/

/-- A filesystem write performed by a run. -/
inductive FsEffect where
  | mkdirDir (path : String)
  | writeFile (path : String) (content : List Nat)
deriving DecidableEq, Repr

/-- The external outcomes one `process_image` call can observe. -/
structure ImageEnv where
  encodeResult : Except String String
  runResult : Except String PyVal
  downloadResult : Except String (List Nat)
deriving Repr

/-- `process_image` from `app/process_whiteboard.py`: encode the image,
call the model, normalize the response with `get_output_url`, and on a
located URL download the bytes, create the parent directory and write the
output file, returning `True`.  A `None` location returns `False` after a
warning; any exception in the `try` block is caught and returns `False`.
Returns the success flag and the filesystem writes performed. -/
def process_image (env : ImageEnv) (outputDir name : String) :
    Bool × List FsEffect :=
  match env.encodeResult with
  | Except.error _ => (false, [])
  | Except.ok _uri =>
    match env.runResult with
    | Except.error _ => (false, [])
    | Except.ok output =>
      match get_output_url output with
      | some _url =>
        match env.downloadResult with
        | Except.error _ => (false, [])
        | Except.ok content =>
          (true, [FsEffect.mkdirDir outputDir,
                  FsEffect.writeFile (outputDir ++ "/" ++ name) content])
      | Option.none => (false, [])

/-- The success flag of `process_image`, which does not depend on the
output location. -/
def image_ok (env : ImageEnv) : Bool :=
  (process_image env "" "").1

/-- The loop body of `process_folder`: one image per environment, indexed
from 1, accumulating the success count and the write trace. -/
def process_folderAux (folderName timestamp : String) (total : Nat)
    (outputDir : String) : List ImageEnv → Nat → Nat × List FsEffect
  | [], _ => (0, [])
  | env :: rest, i =>
    let name := generate_descriptive_name folderName i total timestamp
    let r := process_image env outputDir name
    let next := process_folderAux folderName timestamp total outputDir rest (i + 1)
    ((if r.1 then 1 else 0) + next.1, r.2 ++ next.2)

/-- `process_folder` from `app/process_whiteboard.py`: with no eligible
images it returns `(0, 0)` immediately (before any directory creation);
otherwise it creates the per-folder output directory under the enhanced
root and runs the loop, returning `(success_count, total)` together with
the filesystem writes performed. -/
def process_folder (folderName timestamp : String) (envs : List ImageEnv) :
    (Nat × Nat) × List FsEffect :=
  if envs.isEmpty then ((0, 0), [])
  else
    let outputDir := "images/enhanced/" ++ folderName
    let r := process_folderAux folderName timestamp envs.length outputDir envs 1
    ((r.1, envs.length), FsEffect.mkdirDir outputDir :: r.2)

/-- The post-processing decision of `main` in `app/process_whiteboard.py`:
the relocation prompt is offered only when `success == total and
total > 0`, and the folder is moved only when the user then confirms. -/
def main_moves_folder (folderName timestamp : String) (envs : List ImageEnv)
    (moveConfirm : Bool) : Bool :=
  let r := (process_folder folderName timestamp envs).1
  if r.1 = r.2 ∧ 0 < r.2 then moveConfirm else false

/-!
## Evaluation harness (`eval/run_eval.py`)
-/

/-- The external outcomes one evaluation item (one image with one model)
can observe. -/
structure EvalEnv where
  runResult : Except String PyVal
  downloadResult : Except String (List Nat)
deriving Repr

/-- `run_model` from `eval/run_eval.py`: build the inputs, call the model
and normalize its response; any exception in the `try` block is caught and
yields `None`. -/
def run_model (env : EvalEnv) : Option String :=
  match env.runResult with
  | Except.error _ => Option.none
  | Except.ok output => run_model_normalize output

/-- `download_image` from `eval/run_eval.py`: fetch the URL, create the
parent directory and write the file, returning `True`; any exception is
caught and returns `False`.  The output path is passed as directory plus
file name. -/
def download_image (env : EvalEnv) (outputDir name : String) :
    Bool × List FsEffect :=
  match env.downloadResult with
  | Except.error _ => (false, [])
  | Except.ok content =>
    (true, [FsEffect.mkdirDir outputDir,
            FsEffect.writeFile (outputDir ++ "/" ++ name) content])

/-- The per-(image, model) status recorded by the evaluation harness. -/
inductive EvalStatus where
  | success
  | api_failed
  | download_failed
deriving DecidableEq, Repr

/-- The body of the evaluation main loop for one (image, model) pair:
a `None` from `run_model` records `api_failed`; otherwise the download
runs and records `success` or `download_failed`. -/
def eval_item (env : EvalEnv) (outputDir name : String) :
    EvalStatus × List FsEffect :=
  match run_model env with
  | some _url =>
    let d := download_image env outputDir name
    (if d.1 then EvalStatus.success else EvalStatus.download_failed, d.2)
  | Option.none => (EvalStatus.api_failed, [])

/-- The results list built by the evaluation main loop: one status per
(image, model) pair, in order. -/
def eval_results (pairs : List EvalEnv) (outputDir : String) :
    List EvalStatus :=
  pairs.map (fun env => (eval_item env outputDir "out.png").1)

/-!
## Model registries

Request payloads are JSON-shaped values over strings and arrays; each
registry entry carries the remote identifier and the payload builder.
-/

/-- A JSON value as used in the request payloads of this program. -/
inductive JsonVal where
  | jstr (s : String)
  | jarr (items : List JsonVal)

/-- A registry entry of the production CLI (`MODELS` in
`app/process_whiteboard.py`). -/
structure AppModelConfig where
  id : String
  description : String
  input_fn : String → String → List (String × JsonVal)

/-- A registry entry of the evaluation harness (`MODELS` in
`eval/run_eval.py`). -/
structure EvalModelConfig where
  id : String
  input_fn : String → String → List (String × JsonVal)

/-- `MODELS` from `app/process_whiteboard.py`, in source order. -/
def MODELS_app : List (String × AppModelConfig) :=
  [("nano-banana",
    { id := "google/nano-banana",
      description := "Google Gemini 2.5 Flash - fast, good quality (default)",
      input_fn := fun prompt image_uri =>
        [("prompt", JsonVal.jstr prompt),
         ("image_input", JsonVal.jarr [JsonVal.jstr image_uri]),
         ("output_format", JsonVal.jstr "png")] }),
   ("nano-banana-pro",
    { id := "google/nano-banana-pro",
      description := "Google Gemini 3 Pro - highest quality, text rendering",
      input_fn := fun prompt image_uri =>
        [("prompt", JsonVal.jstr prompt),
         ("image_input", JsonVal.jarr [JsonVal.jstr image_uri]),
         ("output_format", JsonVal.jstr "png")] }),
   ("flux-kontext-pro",
    { id := "black-forest-labs/flux-kontext-pro",
      description := "FLUX Kontext Pro - strong image editing",
      input_fn := fun prompt image_uri =>
        [("prompt", JsonVal.jstr prompt),
         ("input_image", JsonVal.jstr image_uri),
         ("aspect_ratio", JsonVal.jstr "match_input_image"),
         ("output_format", JsonVal.jstr "png")] }),
   ("flux-1.1-pro",
    { id := "black-forest-labs/flux-1.1-pro",
      description := "FLUX 1.1 Pro - composition guidance",
      input_fn := fun prompt image_uri =>
        [("prompt", JsonVal.jstr prompt),
         ("image_prompt", JsonVal.jstr image_uri),
         ("aspect_ratio", JsonVal.jstr "1:1"),
         ("output_format", JsonVal.jstr "png")] }),
   ("qwen-image-edit",
    { id := "qwen/qwen-image-edit",
      description := "Qwen Image Edit - precise text editing",
      input_fn := fun prompt image_uri =>
        [("prompt", JsonVal.jstr prompt),
         ("image", JsonVal.jstr image_uri),
         ("output_format", JsonVal.jstr "png")] }),
   ("qwen-image-edit-plus",
    { id := "qwen/qwen-image-edit-plus",
      description := "Qwen Image Edit Plus - enhanced editing",
      input_fn := fun prompt image_uri =>
        [("prompt", JsonVal.jstr prompt),
         ("image", JsonVal.jarr [JsonVal.jstr image_uri]),
         ("output_format", JsonVal.jstr "png")] })]

/-- `MODELS` from `eval/run_eval.py`, in source order. -/
def MODELS_eval : List (String × EvalModelConfig) :=
  [("flux-kontext-pro",
    { id := "black-forest-labs/flux-kontext-pro",
      input_fn := fun prompt image_uri =>
        [("prompt", JsonVal.jstr prompt),
         ("input_image", JsonVal.jstr image_uri),
         ("aspect_ratio", JsonVal.jstr "match_input_image"),
         ("output_format", JsonVal.jstr "png")] }),
   ("flux-1.1-pro",
    { id := "black-forest-labs/flux-1.1-pro",
      input_fn := fun prompt image_uri =>
        [("prompt", JsonVal.jstr prompt),
         ("image_prompt", JsonVal.jstr image_uri),
         ("aspect_ratio", JsonVal.jstr "1:1"),
         ("output_format", JsonVal.jstr "png")] }),
   ("qwen-image-edit",
    { id := "qwen/qwen-image-edit",
      input_fn := fun prompt image_uri =>
        [("prompt", JsonVal.jstr prompt),
         ("image", JsonVal.jstr image_uri),
         ("output_format", JsonVal.jstr "png")] }),
   ("qwen-image-edit-plus",
    { id := "qwen/qwen-image-edit-plus",
      input_fn := fun prompt image_uri =>
        [("prompt", JsonVal.jstr prompt),
         ("image", JsonVal.jarr [JsonVal.jstr image_uri]),
         ("output_format", JsonVal.jstr "png")] }),
   ("nano-banana",
    { id := "google/nano-banana",
      input_fn := fun prompt image_uri =>
        [("prompt", JsonVal.jstr prompt),
         ("image_input", JsonVal.jarr [JsonVal.jstr image_uri]),
         ("output_format", JsonVal.jstr "png")] }),
   ("nano-banana-pro",
    { id := "google/nano-banana-pro",
      input_fn := fun prompt image_uri =>
        [("prompt", JsonVal.jstr prompt),
         ("image_input", JsonVal.jarr [JsonVal.jstr image_uri]),
         ("output_format", JsonVal.jstr "png")] })]

/-!
## Helper lemmas
-/

lemma b64index_b64char_fin : ∀ n : Fin 64, b64index (b64char n.val) = n.val := by
  decide

lemma b64index_b64char (n : Nat) (h : n < 64) : b64index (b64char n) = n :=
  b64index_b64char_fin ⟨n, h⟩

lemma b64char_ne_pad_fin : ∀ n : Fin 64, b64char n.val ≠ '=' := by
  decide

lemma b64char_ne_pad (n : Nat) (h : n < 64) : b64char n ≠ '=' :=
  b64char_ne_pad_fin ⟨n, h⟩

/-- Decoding inverts encoding on any list of bytes. -/
theorem b64_round_trip : ∀ (bytes : List Nat), (∀ b ∈ bytes, b < 256) →
    b64decodeChars (b64encodeBytes bytes) = bytes
  | [], _ => rfl
  | [b1], h => by
    have hb1 : b1 < 256 := h b1 (by simp)
    simp only [b64encodeBytes, b64decodeChars]
    rw [if_pos trivial]
    rw [b64index_b64char _ (by omega), b64index_b64char _ (by omega)]
    simp only [List.cons.injEq, and_true]
    omega
  | [b1, b2], h => by
    have hb1 : b1 < 256 := h b1 (by simp)
    have hb2 : b2 < 256 := h b2 (by simp)
    simp only [b64encodeBytes, b64decodeChars]
    rw [if_neg (b64char_ne_pad _ (by omega)), if_pos trivial]
    rw [b64index_b64char _ (by omega), b64index_b64char _ (by omega),
        b64index_b64char _ (by omega)]
    simp only [List.cons.injEq, and_true]
    omega
  | b1 :: b2 :: b3 :: rest, h => by
    have hb1 : b1 < 256 := h b1 (by simp)
    have hb2 : b2 < 256 := h b2 (by simp)
    have hb3 : b3 < 256 := h b3 (by simp)
    have ih := b64_round_trip rest (fun b hb => h b (by simp [hb]))
    simp only [b64encodeBytes, b64decodeChars]
    rw [if_neg (b64char_ne_pad _ (by omega)), if_neg (b64char_ne_pad _ (by omega))]
    rw [b64index_b64char _ (by omega), b64index_b64char _ (by omega),
        b64index_b64char _ (by omega), b64index_b64char _ (by omega)]
    rw [ih]
    simp only [List.cons.injEq, and_true]
    omega

lemma pyStartsWith_singleton_http (c : Char) :
    pyStartsWith (String.singleton c) "http" = false := by
  simp [pyStartsWith, String.singleton, List.isPrefixOf]

lemma scanItems_singletons (cs : List Char) :
    scanItems (cs.map (fun c => PyItem.strItem (String.singleton c))) = Option.none := by
  induction cs with
  | nil => rfl
  | cons c cs ih => simp [scanItems, pyStartsWith_singleton_http, ih]

lemma pyStartsWith_bracket (rest : String) :
    pyStartsWith ("[" ++ rest) "http" = false := by
  simp [pyStartsWith, String.data_append, List.isPrefixOf]

lemma process_image_fst (env : ImageEnv) (outputDir name : String) :
    (process_image env outputDir name).1 = image_ok env := by
  unfold image_ok process_image
  rcases env with ⟨enc, run, dl⟩
  cases enc with
  | error e => rfl
  | ok uri =>
    cases run with
    | error e => rfl
    | ok output =>
      cases h : get_output_url output with
      | none => simp [h]
      | some u => cases dl <;> simp [h]

lemma process_folderAux_fst (folderName timestamp : String) (total : Nat)
    (outputDir : String) : ∀ (envs : List ImageEnv) (i : Nat),
    (process_folderAux folderName timestamp total outputDir envs i).1
      = envs.countP image_ok
  | [], _ => rfl
  | env :: rest, i => by
    simp only [process_folderAux, List.countP_cons,
      process_folderAux_fst folderName timestamp total outputDir rest (i + 1),
      process_image_fst]
    rcases Bool.eq_false_or_eq_true (image_ok env) with h | h <;>
      simp [h, Nat.add_comm]

lemma process_folder_counts (folderName timestamp : String) (envs : List ImageEnv) :
    (process_folder folderName timestamp envs).1
      = (envs.countP image_ok, envs.length) := by
  by_cases h : envs.isEmpty
  · rw [List.isEmpty_iff] at h
    subst h
    rfl
  · simp only [process_folder, h, if_neg, Bool.false_eq_true, if_false,
      process_folderAux_fst]

lemma strOf_list_not_http (items : List PyItem) :
    pyStartsWith (strOf (PyVal.pyList items)) "http" = false := by
  simp [strOf, pyStartsWith, String.data_append, List.isPrefixOf]

lemma eval_normalize_eq (output : PyVal) :
    run_model_normalize output = get_output_url output := by
  cases output with
  | pyNone => rfl
  | urlObj u sf => rfl
  | pyList items => rfl
  | plainObj sf => rfl
  | pyStr s =>
    by_cases h : pyStartsWith s "http" = true
    · simp [run_model_normalize, get_output_url, urlAttr, asString, h]
    · simp only [Bool.not_eq_true] at h
      simp [run_model_normalize, get_output_url, urlAttr, asString, h,
        iterScan, iterOf, scanItems_singletons, lastResort, strOf]

/-!
## Claims
-/

/-- C1: the selected queue folder is relocated to the processed directory
only when every image in it was successfully processed in the current run;
whenever `success_count < total_count` the folder stays in place. -/
theorem folder_moved_only_on_full_success (folderName timestamp : String)
    (envs : List ImageEnv) (confirm : Bool) :
    (main_moves_folder folderName timestamp envs confirm = true →
      ∀ env ∈ envs, image_ok env = true) ∧
    ((process_folder folderName timestamp envs).1.1
        < (process_folder folderName timestamp envs).1.2 →
      main_moves_folder folderName timestamp envs confirm = false) := by
  constructor
  · intro hmove env henv
    unfold main_moves_folder at hmove
    rw [process_folder_counts] at hmove
    by_cases hc : envs.countP image_ok = envs.length ∧ 0 < envs.length
    · exact (List.countP_eq_length.mp hc.1) env henv
    · rw [if_neg hc] at hmove
      exact absurd hmove (by simp)
  · intro hlt
    unfold main_moves_folder
    rw [process_folder_counts] at hlt ⊢
    have hne : ¬ (envs.countP image_ok = envs.length ∧ 0 < envs.length) := by
      simp only [] at hlt
      omega
    rw [if_neg hne]

/-- Witness for C1: a one-image run whose encoding step raises leaves
`success_count < total_count` and the folder is not moved even when the
user would confirm the move. -/
theorem folder_moved_only_on_full_success_witness :
    (process_folder "board" "20260101"
        [⟨Except.error "boom", Except.ok PyVal.pyNone, Except.error "net"⟩]).1.1
      < (process_folder "board" "20260101"
        [⟨Except.error "boom", Except.ok PyVal.pyNone, Except.error "net"⟩]).1.2 ∧
    main_moves_folder "board" "20260101"
        [⟨Except.error "boom", Except.ok PyVal.pyNone, Except.error "net"⟩] true = false := by
  refine ⟨by decide, ?_⟩
  exact (folder_moved_only_on_full_success "board" "20260101"
    [⟨Except.error "boom", Except.ok PyVal.pyNone, Except.error "net"⟩] true).2 (by decide)

/-- C2: response normalization follows the priority order of the spec:
a `url` attribute wins, then an `http` string, then the first matching
item of an iterable, then the stringified value if it starts with `http`,
else no location; and the evaluation-harness normalizer agrees with the
production one on every response value. -/
theorem response_normalization (u sf s t : String) (items : List PyItem)
    (output : PyVal) :
    get_output_url (PyVal.urlObj u sf) = some u ∧
    (pyStartsWith s "http" = true → get_output_url (PyVal.pyStr s) = some s) ∧
    (pyStartsWith s "http" = false → get_output_url (PyVal.pyStr s) = Option.none) ∧
    (scanItems items = some t → get_output_url (PyVal.pyList items) = some t) ∧
    (scanItems items = Option.none → get_output_url (PyVal.pyList items) = Option.none) ∧
    (pyStartsWith sf "http" = true → get_output_url (PyVal.plainObj sf) = some sf) ∧
    (pyStartsWith sf "http" = false → get_output_url (PyVal.plainObj sf) = Option.none) ∧
    get_output_url PyVal.pyNone = Option.none ∧
    run_model_normalize output = get_output_url output := by
  refine ⟨rfl, ?_, ?_, ?_, ?_, ?_, ?_, rfl, eval_normalize_eq output⟩
  · intro h
    simp [get_output_url, urlAttr, asString, h]
  · intro h
    simp [get_output_url, urlAttr, asString, h, iterScan, iterOf,
      scanItems_singletons, lastResort, strOf]
  · intro h
    simp [get_output_url, urlAttr, asString, iterScan, iterOf, h]
  · intro h
    simp [get_output_url, urlAttr, asString, iterScan, iterOf, h,
      lastResort, strOf_list_not_http]
  · intro h
    simp [get_output_url, urlAttr, asString, iterScan, iterOf, lastResort, strOf, h]
  · intro h
    simp [get_output_url, urlAttr, asString, iterScan, iterOf, lastResort, strOf, h]

/-- Witness for C2: a mixed list whose first match is a URL-bearing item
normalizes to that URL. -/
theorem response_normalization_witness :
    get_output_url (PyVal.pyList
      [PyItem.strItem "not-a-url", PyItem.urlItem "http://out/img.png" "fileoutput",
       PyItem.strItem "http://late"]) = some "http://out/img.png" := by
  have h := (response_normalization "u" "sf" "s" "http://out/img.png"
    [PyItem.strItem "not-a-url", PyItem.urlItem "http://out/img.png" "fileoutput",
     PyItem.strItem "http://late"] PyVal.pyNone).2.2.2.1
  exact h (by decide)

/-- C3: every per-item exception (encoding, remote call, download) in the
production CLI and the evaluation harness is caught and recorded as a
failure for that single image, and the run still covers all sibling
images. -/
theorem per_item_errors_contained (folderName timestamp outputDir : String)
    (envs : List ImageEnv) (pairs : List EvalEnv) :
    (process_folder folderName timestamp envs).1.2 = envs.length ∧
    (∀ env ∈ envs,
      ((∃ m, env.encodeResult = Except.error m) ∨
       (∃ m, env.runResult = Except.error m) ∨
       (∃ m, env.downloadResult = Except.error m)) → image_ok env = false) ∧
    (eval_results pairs outputDir).length = pairs.length ∧
    (∀ env ∈ pairs, (∃ m, env.runResult = Except.error m) →
      (eval_item env outputDir "out.png").1 = EvalStatus.api_failed) ∧
    (∀ env ∈ pairs, (∃ m, env.downloadResult = Except.error m) →
      (eval_item env outputDir "out.png").1 ≠ EvalStatus.success) := by
  refine ⟨?_, ?_, ?_, ?_, ?_⟩
  · rw [process_folder_counts]
  · rintro ⟨enc, run, dl⟩ henv herr
    cases enc with
    | error m => rfl
    | ok uri =>
      cases run with
      | error m => rfl
      | ok output =>
        rcases herr with ⟨m, hm⟩ | ⟨m, hm⟩ | ⟨m, hm⟩
        · exact absurd hm (by simp)
        · exact absurd hm (by simp)
        · cases dl with
          | error m2 =>
            unfold image_ok process_image
            cases h : get_output_url output <;> simp [h]
          | ok c => exact absurd hm (by simp)
  · simp [eval_results]
  · rintro ⟨run, dl⟩ henv ⟨m, hm⟩
    cases run with
    | error m2 => rfl
    | ok output => exact absurd hm (by simp)
  · rintro ⟨run, dl⟩ henv ⟨m, hm⟩
    cases dl with
    | ok c => exact absurd hm (by simp)
    | error m2 =>
      cases run with
      | error m3 => simp [eval_item, run_model]
      | ok output =>
        unfold eval_item run_model
        cases h : run_model_normalize output with
        | none => simp [h]
        | some u => simp [h, download_image]

/-- Witness for C3: a two-image run whose first image raises at encoding
still reports both images, and an evaluation item whose remote call raises
is recorded as api_failed. -/
theorem per_item_errors_contained_witness :
    (process_folder "board" "20260101"
        [⟨Except.error "enc-fail", Except.ok PyVal.pyNone, Except.ok [1]⟩,
         ⟨Except.ok "uri", Except.ok (PyVal.pyStr "http://img"), Except.ok [2]⟩]).1.2 = 2 ∧
    image_ok ⟨Except.error "enc-fail", Except.ok PyVal.pyNone, Except.ok [1]⟩ = false ∧
    (eval_item ⟨Except.error "api-down", Except.ok [9]⟩ "runs" "out.png").1
      = EvalStatus.api_failed := by
  have h := per_item_errors_contained "board" "20260101" "runs"
    [⟨Except.error "enc-fail", Except.ok PyVal.pyNone, Except.ok [1]⟩,
     ⟨Except.ok "uri", Except.ok (PyVal.pyStr "http://img"), Except.ok [2]⟩]
    [⟨Except.error "api-down", Except.ok [9]⟩]
  refine ⟨h.1, ?_, ?_⟩
  · exact h.2.1 _ (by simp) (Or.inl ⟨"enc-fail", rfl⟩)
  · exact h.2.2.2.1 _ (by simp) ⟨"api-down", rfl⟩


/-- Counterexample for C4 as stated: `.gif` is in the recognized extension
set, but the evaluation-harness encoder has no `.gif` row in its MIME
table, so it emits the default `image/png` MIME type rather than one
matching the extension. -/
theorem eval_encoder_gif_default :
    image_to_data_uri_eval ".gif" [71] = "data:image/png;base64,Rw==" ∧
    pyStartsWith (image_to_data_uri_eval ".gif" [71]) "data:image/gif" = false := by
  decide

/-- C4 (amended): the production encoder maps every recognized extension,
case-insensitively, to its matching MIME type and emits
`data:<mime>;base64,<payload>` whose payload decodes back to the original
bytes; the evaluation encoder does the same for the extensions its table
holds (`.png`, `.jpg`, `.jpeg`, `.webp`) and falls back to `image/png` for
the other recognized extensions, with the same round-trip. -/
theorem data_uri_round_trip (suffix mime : String) (data : List Nat)
    (hmem : (lowerStr suffix, mime) ∈ mime_types_app)
    (hdata : ∀ b ∈ data, b < 256) :
    image_to_data_uri suffix data
      = "data:" ++ mime ++ ";base64," ++ String.mk (b64encodeBytes data) ∧
    b64decodeChars (b64encodeBytes data) = data ∧
    ((lowerStr suffix, mime) ∈ mime_types_eval →
      image_to_data_uri_eval suffix data
        = "data:" ++ mime ++ ";base64," ++ String.mk (b64encodeBytes data)) ∧
    ((lowerStr suffix, mime) ∉ mime_types_eval →
      image_to_data_uri_eval suffix data
        = "data:image/png;base64," ++ String.mk (b64encodeBytes data)) := by
  refine ⟨?_, b64_round_trip data hdata, ?_, ?_⟩
  · simp only [mime_types_app, List.mem_cons, List.not_mem_nil, or_false,
      Prod.mk.injEq] at hmem
    rcases hmem with ⟨h1, h2⟩ | ⟨h1, h2⟩ | ⟨h1, h2⟩ | ⟨h1, h2⟩ | ⟨h1, h2⟩ | ⟨h1, h2⟩ <;>
      subst h2 <;> simp [image_to_data_uri, h1, mime_types_app, List.lookup]
  · intro hev
    simp only [mime_types_eval, List.mem_cons, List.not_mem_nil, or_false,
      Prod.mk.injEq] at hev
    rcases hev with ⟨h1, h2⟩ | ⟨h1, h2⟩ | ⟨h1, h2⟩ | ⟨h1, h2⟩ <;>
      subst h2 <;> simp [image_to_data_uri_eval, h1, mime_types_eval, List.lookup]
  · intro hev
    simp only [mime_types_app, List.mem_cons, List.not_mem_nil, or_false,
      Prod.mk.injEq] at hmem
    rcases hmem with ⟨h1, h2⟩ | ⟨h1, h2⟩ | ⟨h1, h2⟩ | ⟨h1, h2⟩ | ⟨h1, h2⟩ | ⟨h1, h2⟩ <;> subst h2
    · exact absurd (by rw [h1]; decide) hev
    · exact absurd (by rw [h1]; decide) hev
    · exact absurd (by rw [h1]; decide) hev
    · exact absurd (by rw [h1]; decide) hev
    · simp [image_to_data_uri_eval, h1, mime_types_eval, List.lookup]
    · simp [image_to_data_uri_eval, h1, mime_types_eval, List.lookup]

/-- Witness for C4: the uppercased extension `.PNG` of a two-byte file
yields the `image/png` data URI, and its payload decodes back. -/
theorem data_uri_round_trip_witness :
    image_to_data_uri ".PNG" [1, 2] = "data:image/png;base64,AQI=" ∧
    b64decodeChars (b64encodeBytes [1, 2]) = [1, 2] := by
  have h := data_uri_round_trip ".PNG" "image/png" [1, 2] (by decide) (by decide)
  exact ⟨by rw [h.1]; rfl, h.2.1⟩


/-- Counterexample for C5 as stated: with `total = 0` the code takes the
`else` branch and appends the index, whereas the claim says the index is
appended only when `total > 1` and omitted otherwise. -/
theorem generate_name_total_zero_appends_index :
    generate_descriptive_name "board" 2 0 "20260101"
      = "board-02-enhanced-20260101.png" ∧
    generate_descriptive_name "board" 2 0 "20260101"
      ≠ "board-enhanced-20260101.png" := by
  decide

/-- C5 (amended): `generate_output_name` lowercases the folder name and
turns spaces and underscores into hyphens, appends the zero-padded
two-digit index exactly when `total` is not 1 (so also for `total = 0`, an
input `process_folder` never produces), then the date stamp and the fixed
`.png` extension; the two documented examples hold. -/
theorem generate_name_shape (folder_name timestamp : String) (index total : Nat) :
    generate_descriptive_name "My Folder" 1 1 timestamp
      = "my-folder-enhanced-" ++ timestamp ++ ".png" ∧
    generate_descriptive_name "My Folder" 2 5 timestamp
      = "my-folder-02-enhanced-" ++ timestamp ++ ".png" ∧
    (total = 1 → generate_descriptive_name folder_name index total timestamp
      = clean_name folder_name ++ "-enhanced-" ++ timestamp ++ ".png") ∧
    (total ≠ 1 → generate_descriptive_name folder_name index total timestamp
      = clean_name folder_name ++ "-" ++ pad2 index ++ "-enhanced-" ++ timestamp ++ ".png") ∧
    (index < 10 → pad2 index = "0" ++ toString index) ∧
    (10 ≤ index → pad2 index = toString index) := by
  refine ⟨rfl, rfl, ?_, ?_, ?_, ?_⟩
  · intro h
    simp [generate_descriptive_name, h]
  · intro h
    simp [generate_descriptive_name, h]
  · intro h
    simp [pad2, h]
  · intro h
    simp [pad2]
    omega


/-- Witness for C5: a folder name with an underscore, index 3 of 7. -/
theorem generate_name_shape_witness :
    generate_descriptive_name "A_B" 3 7 "20260101" = "a-b-03-enhanced-20260101.png" := by
  have h := (generate_name_shape "A_B" "20260101" 3 7).2.2.2.1 (by decide)
  rw [h]
  decide

/-- Counterexample for C6 as stated: on an empty folder `process_folder`
returns before the `mkdir` call, so the per-folder output subdirectory
under the enhanced root is NOT created. -/
theorem empty_folder_no_output_dir :
    (process_folder "empty-folder" "20260101" []).1 = (0, 0) ∧
    FsEffect.mkdirDir ("images/enhanced/" ++ "empty-folder")
      ∉ (process_folder "empty-folder" "20260101" []).2 := by
  decide

/-- C6 (amended): on a folder with no eligible images `process_folder`
returns `(0, 0)` without error and performs no filesystem side effects at
all — the empty-list check precedes output-directory creation — and the
relocation step is not offered. -/
theorem empty_folder_no_effects (folderName timestamp : String) (confirm : Bool) :
    process_folder folderName timestamp [] = ((0, 0), []) ∧
    main_moves_folder folderName timestamp [] confirm = false := by
  refine ⟨rfl, ?_⟩
  simp [main_moves_folder, process_folder]

/-- C7: two `move_to_processed` calls with folders of the same name yield
two distinct destinations under the processed root, the second carrying
the timestamp suffix, and both moved entries are present afterwards. -/
theorem move_to_processed_twice (existing : List String) (name ts1 ts2 : String)
    (h : name ∉ existing) :
    (move_to_processed existing name ts1).1 = name ∧
    (move_to_processed (move_to_processed existing name ts1).2 name ts2).1
      = name ++ "-" ++ ts2 ∧
    name ≠ name ++ "-" ++ ts2 ∧
    name ∈ (move_to_processed (move_to_processed existing name ts1).2 name ts2).2 ∧
    name ++ "-" ++ ts2
      ∈ (move_to_processed (move_to_processed existing name ts1).2 name ts2).2 := by
  have hne : name ≠ name ++ "-" ++ ts2 := by
    intro he
    have hlen := congrArg String.length he
    have hd : "-".length = 1 := rfl
    simp only [String.length_append, hd] at hlen
    omega
  have hstate1 : move_to_processed existing name ts1 = (name, name :: existing) := by
    simp [move_to_processed, h]
  have hstep2 : move_to_processed (name :: existing) name ts2
      = (name ++ "-" ++ ts2, (name ++ "-" ++ ts2) :: name :: existing) := by
    simp [move_to_processed]
  rw [hstate1]
  simp only [hstep2]
  refine ⟨?_, ?_, hne, ?_, ?_⟩ <;> simp

/-- Witness for C7 at a concrete folder name and timestamps. -/
theorem move_to_processed_twice_witness :
    (move_to_processed [] "board" "20260101-120000").1 = "board" ∧
    (move_to_processed (move_to_processed [] "board" "20260101-120000").2
      "board" "20260101-120130").1 = "board" ++ "-" ++ "20260101-120130" := by
  have h := move_to_processed_twice [] "board" "20260101-120000" "20260101-120130"
    (by simp)
  exact ⟨h.1, h.2.1⟩


lemma lookup_eq_none_of_not_mem_keys (l : List (String × String)) (k : String)
    (h : k ∉ l.map Prod.fst) : l.lookup k = Option.none := by
  induction l with
  | nil => rfl
  | cons p rest ih =>
    rcases p with ⟨k1, v1⟩
    simp only [List.map, List.mem_cons, not_or] at h
    have hb : (k == k1) = false := beq_eq_false_iff_ne.mpr h.1
    simp [List.lookup, hb, ih h.2]

/-- C8: a file whose lowercased extension is outside the recognized MIME
table still encodes without failing: both encoders fall back to the
generic `image/png` MIME type and emit a well-formed data URI whose
payload decodes back to the original bytes. -/
theorem unrecognized_extension_defaults (suffix : String) (data : List Nat)
    (h : lowerStr suffix ∉ mime_types_app.map Prod.fst)
    (hdata : ∀ b ∈ data, b < 256) :
    image_to_data_uri suffix data
      = "data:image/png;base64," ++ String.mk (b64encodeBytes data) ∧
    image_to_data_uri_eval suffix data
      = "data:image/png;base64," ++ String.mk (b64encodeBytes data) ∧
    b64decodeChars (b64encodeBytes data) = data := by
  have hev : lowerStr suffix ∉ mime_types_eval.map Prod.fst := by
    intro hm
    apply h
    simp only [mime_types_eval, List.map, List.mem_cons, List.not_mem_nil, or_false] at hm
    simp only [mime_types_app, List.map, List.mem_cons, List.not_mem_nil, or_false]
    tauto
  have h1 := lookup_eq_none_of_not_mem_keys mime_types_app (lowerStr suffix) h
  have h2 := lookup_eq_none_of_not_mem_keys mime_types_eval (lowerStr suffix) hev
  refine ⟨?_, ?_, b64_round_trip data hdata⟩
  · simp only [image_to_data_uri, h1]
    rfl
  · simp only [image_to_data_uri_eval, h2]
    rfl

/-- Witness for C8: a `.tiff` file gets the default `image/png` type. -/
theorem unrecognized_extension_defaults_witness :
    image_to_data_uri ".tiff" [7] = "data:image/png;base64,Bw==" := by
  have h := (unrecognized_extension_defaults ".tiff" [7] (by decide) (by decide)).1
  rw [h]
  rfl

/-- C9: when processing a single image fails — `process_image` returns
`False`, or the evaluation-harness download step fails — no filesystem
write is performed for it: the output file exists only on success. -/
theorem failed_image_writes_nothing (env : ImageEnv) (outputDir name : String)
    (denv : EvalEnv) (dir2 name2 : String) :
    ((process_image env outputDir name).1 = false →
      (process_image env outputDir name).2 = []) ∧
    ((download_image denv dir2 name2).1 = false →
      (download_image denv dir2 name2).2 = []) := by
  constructor
  · intro hf
    rcases env with ⟨enc, run, dl⟩
    cases enc with
    | error m => rfl
    | ok uri =>
      cases run with
      | error m => rfl
      | ok output =>
        unfold process_image at hf ⊢
        cases h : get_output_url output with
        | none => simp [h]
        | some u =>
          cases dl with
          | error m => simp [h]
          | ok c => simp [h] at hf
  · intro hf
    rcases denv with ⟨run, dl⟩
    cases dl with
    | error m => rfl
    | ok c => simp [download_image] at hf

/-- Witness for C9: a run whose response normalizes to no location writes
nothing, and a failed evaluation download writes nothing. -/
theorem failed_image_writes_nothing_witness :
    (process_image ⟨Except.ok "uri", Except.ok (PyVal.pyStr "oops"), Except.ok [1]⟩
      "images/enhanced/board" "board-enhanced-20260101.png").1 = false ∧
    (process_image ⟨Except.ok "uri", Except.ok (PyVal.pyStr "oops"), Except.ok [1]⟩
      "images/enhanced/board" "board-enhanced-20260101.png").2 = [] ∧
    (download_image ⟨Except.ok PyVal.pyNone, Except.error "timeout"⟩ "runs/x" "a.png").2
      = [] := by
  refine ⟨by decide, ?_, ?_⟩
  · exact (failed_image_writes_nothing
      ⟨Except.ok "uri", Except.ok (PyVal.pyStr "oops"), Except.ok [1]⟩
      "images/enhanced/board" "board-enhanced-20260101.png"
      ⟨Except.ok PyVal.pyNone, Except.error "timeout"⟩ "runs/x" "a.png").1 (by decide)
  · exact (failed_image_writes_nothing
      ⟨Except.ok "uri", Except.ok (PyVal.pyStr "oops"), Except.ok [1]⟩
      "images/enhanced/board" "board-enhanced-20260101.png"
      ⟨Except.ok PyVal.pyNone, Except.error "timeout"⟩ "runs/x" "a.png").2 (by decide)

/-- C10: every model short name present in both registries maps to the
same provider identifier, and the two payload builders produce the same
field-for-field request object on every (prompt, image_uri) pair. -/
theorem registries_payload_agree (name prompt image_uri : String)
    (h1 : name ∈ MODELS_app.map Prod.fst) (h2 : name ∈ MODELS_eval.map Prod.fst) :
    ∃ ca ce, MODELS_app.lookup name = some ca ∧ MODELS_eval.lookup name = some ce ∧
      ca.id = ce.id ∧ ca.input_fn prompt image_uri = ce.input_fn prompt image_uri := by
  simp only [Whiteboard.MODELS_app, List.map, List.mem_cons, List.not_mem_nil, or_false] at h1
  rcases h1 with h | h | h | h | h | h <;> subst h <;>
    exact ⟨_, _, rfl, rfl, rfl, rfl⟩

/-- Witness for C10 at the shared name nano-banana. -/
theorem registries_payload_agree_witness :
    ∃ ca ce, MODELS_app.lookup "nano-banana" = some ca ∧
      MODELS_eval.lookup "nano-banana" = some ce ∧ ca.id = ce.id ∧
      ca.input_fn "p" "u" = ce.input_fn "p" "u" :=
  registries_payload_agree "nano-banana" "p" "u"
    (by simp [Whiteboard.MODELS_app]) (by simp [Whiteboard.MODELS_eval])


end Whiteboard
